import Mathlib

/-!
Shallow embedding of the hotel-management backend route handlers
(Express + MySQL) relevant to the inventory ledger, maintenance ledger
and employee-update operations.

Tables are lists of rows; `NOW()` is an explicit `now : Nat` parameter;
MySQL auto-increment ids are explicit `next...ID` counters in the state.
A database error at the i-th query of a handler is injected through an
oracle `errAt : Nat → Bool`; a begin/commit/rollback transaction is
modelled by returning the incoming database state on every non-commit
path.  SQL numeric values are modelled as `Int` (the claims only use
exact addition, sign and comparison).
-/

/-- A row of the `Inventory` table. -/
structure InvRow where
  inventoryID : Nat
  hotelID : Nat
  itemName : String
  category : Option String
  quantity : Int
  unit : Option String
  lowStockThreshold : Option Int
  lastUpdated : Nat
deriving DecidableEq, Repr

/-- A row of the `InventoryTransactions` table. -/
structure TxRow where
  transactionID : Nat
  inventoryID : Nat
  hotelID : Nat
  transactionType : String
  quantity : Int
  status : String
  unitPrice : Option Int
  reason : Option String
  transactionDate : Nat
  receiveDate : Option Nat
deriving DecidableEq, Repr

/-- A row of the `BillMaintenanceLedger` table. -/
structure LedgerRow where
  ledgerID : Nat
  hotelID : Nat
  serviceType : String
  amount : Int
  ledgerDate : Nat
deriving DecidableEq, Repr

/-- A row of the `Department` table. -/
structure DeptRow where
  deptID : Nat
  deptName : String
  hotelID : Nat
deriving DecidableEq, Repr

/-- A row of the `Employee` table (the columns the modelled handlers touch). -/
structure EmpRow where
  empID : Nat
  deptID : Nat
  firstName : String
  lastName : String
  phone : Option String
  email : String
  hourlyPay : Int
  role : String
  workingStatus : String
  hiredDate : Nat
deriving DecidableEq, Repr

/-- A row of the `Hotel` table (only its identity matters for the claims). -/
structure HotelRow where
  hotelID : Nat
  hotelName : String
deriving DecidableEq, Repr

/-- A row of the `Booking` table (only its identity matters for the claims). -/
structure BookingRow where
  bookingID : Nat
  roomID : Nat
  hotelID : Nat
deriving DecidableEq, Repr

/-- The relational database state. -/
structure DB where
  hotels : List HotelRow
  inventory : List InvRow
  invTransactions : List TxRow
  maintLedger : List LedgerRow
  departments : List DeptRow
  employees : List EmpRow
  bookings : List BookingRow
  nextInventoryID : Nat
  nextTransactionID : Nat
  nextLedgerID : Nat
deriving DecidableEq, Repr

/-- A response body: the JSON envelopes produced by `res.json`, or a
plain-text body produced by `res.send("...")`. -/
inductive Body where
  /-- `res.status(..).json({ success, error/message })` envelope. -/
  | json (success : Bool) (message : String)
  /-- `res.json(results)` - a raw JSON rows payload. -/
  | jsonRows
  /-- `res.send("...")` - a plain-text body. -/
  | text (s : String)
deriving DecidableEq, Repr

/-- Whether a body is a JSON value (object envelope or rows array). -/
def Body.isJson : Body → Bool
  | .json _ _ => true
  | .jsonRows => true
  | .text _ => false

/-- An HTTP response: status code plus body. -/
structure Response where
  status : Nat
  body : Body
deriving DecidableEq, Repr

/-- The error oracle that injects no database errors. -/
def errNone : Nat → Bool := fun _ => false

/-- SQL `LOWER(...)`, modelled character-wise (kernel-evaluable, unlike
`String.toLower`). -/
def lowerStr (s : String) : String := String.mk (s.data.map Char.toLower)

/-- The `.trim()` sanitizer of express-validator: strip leading and
trailing blanks (kernel-evaluable, unlike `String.trim`). -/
def trimStr (s : String) : String :=
  String.mk (((s.data.dropWhile (fun c => c == ' ')).reverse.dropWhile
    (fun c => c == ' ')).reverse)

/-- `UPDATE Inventory SET Quantity = Quantity + ?, LastUpdated = NOW()
WHERE InventoryID = ?`. -/
def updateInvQty (inv : List InvRow) (invID : Nat) (dq : Int) (now : Nat) :
    List InvRow :=
  inv.map fun r =>
    if r.inventoryID == invID then
      { r with quantity := r.quantity + dq, lastUpdated := now }
    else r

/-- `affectedRows` of an `UPDATE Inventory ... WHERE InventoryID = ?`. -/
def affectedInv (inv : List InvRow) (invID : Nat) : Nat :=
  inv.countP fun r => r.inventoryID == invID

/-- The row filter of `SELECT ... FROM InventoryTransactions WHERE
TransactionID = ? AND Status = 'Pending' AND TransactionType = 'Order'`. -/
def pendingOrder (tid : Int) (t : TxRow) : Bool :=
  ((t.transactionID : Int) == tid) && t.status == "Pending" &&
    t.transactionType == "Order"

/-- `UPDATE InventoryTransactions SET Status = 'Completed', ReceiveDate =
NOW() WHERE TransactionID = ?`. -/
def completeTx (txs : List TxRow) (tid : Int) (now : Nat) : List TxRow :=
  txs.map fun t =>
    if (t.transactionID : Int) == tid then
      { t with status := "Completed", receiveDate := some now }
    else t

/-- `receiveOrderValidation`: `body('transactionID').isInt({ gt: 0 })`. -/
def receiveOrderValid (tid : Int) : Bool := 0 < tid

/-- POST `/api/inventory/receive-order` (inventoryRoutes.js).  Inside a
begin/commit transaction: select the pending order row, add its quantity
to the referenced inventory row, mark the order completed; any failure
path rolls back (returns the incoming `db`). -/
def receiveOrder (db : DB) (now : Nat) (tid : Int) (errAt : Nat → Bool) :
    Response × DB :=
  if ¬ receiveOrderValid tid then
    ({ status := 400, body := .json false "Validation failed." }, db)
  else if errAt 0 then
    ({ status := 500, body := .json false "Database error receiving order." }, db)
  else
    match db.invTransactions.find? (pendingOrder tid) with
    | none =>
        ({ status := 404,
           body := .json false
             "Pending order transaction not found or already completed." }, db)
    | some t =>
        if errAt 1 then
          ({ status := 500,
             body := .json false "Database error receiving order." }, db)
        else if affectedInv db.inventory t.inventoryID == 0 then
          ({ status := 404,
             body := .json false "Associated inventory item not found." }, db)
        else if errAt 2 then
          ({ status := 500,
             body := .json false "Database error receiving order." }, db)
        else
          ({ status := 200,
             body := .json true
               "Order received and inventory updated successfully." },
           { db with
               inventory := updateInvQty db.inventory t.inventoryID t.quantity now,
               invTransactions := completeTx db.invTransactions tid now })

/-- The request body of PATCH `/api/inventory/adjust/:inventoryID`
(`inventoryID` is the URL parameter). -/
structure AdjustReq where
  inventoryID : Int
  adjustmentType : String
  quantityChange : Int
  reason : Option String
  hotelID : Int
deriving DecidableEq, Repr

/-- The route-boundary validation of the adjust endpoint:
`inventoryID` positive int, `adjustmentType` in the allowed list,
`quantityChange` any number, optional `reason` at most 255 chars,
`hotelID` positive int. -/
def adjustValid (r : AdjustReq) : Bool :=
  (0 < r.inventoryID) &&
  (r.adjustmentType == "Stock Count" || r.adjustmentType == "Usage" ||
   r.adjustmentType == "Damage" || r.adjustmentType == "Return" ||
   r.adjustmentType == "Other") &&
  (match r.reason with
   | some s => s.length ≤ 255
   | none => true) &&
  (0 < r.hotelID)

/-- The falsy-to-null collapse of `reason || null`. -/
def orNull (s : Option String) : Option String :=
  match s with
  | some "" => none
  | x => x

/-- PATCH `/api/inventory/adjust/:inventoryID` (inventoryRoutes.js).
Inside a begin/commit transaction: unconditionally add `quantityChange`
to the row (404 if no row matched), then insert one 'Completed'
adjustment row into `InventoryTransactions`. -/
def adjustInventory (db : DB) (now : Nat) (req : AdjustReq)
    (errAt : Nat → Bool) : Response × DB :=
  if ¬ adjustValid req then
    ({ status := 400, body := .json false "Validation failed." }, db)
  else if errAt 0 then
    ({ status := 500,
       body := .json false "Database error adjusting inventory." }, db)
  else if affectedInv db.inventory req.inventoryID.toNat == 0 then
    ({ status := 404, body := .json false "Inventory item not found." }, db)
  else if errAt 1 then
    ({ status := 500,
       body := .json false "Database error adjusting inventory." }, db)
  else
    ({ status := 200,
       body := .json true "Inventory quantity adjusted successfully." },
     { db with
         inventory :=
           updateInvQty db.inventory req.inventoryID.toNat req.quantityChange now,
         invTransactions := db.invTransactions ++
           [{ transactionID := db.nextTransactionID,
              inventoryID := req.inventoryID.toNat,
              hotelID := req.hotelID.toNat,
              transactionType := req.adjustmentType,
              quantity := req.quantityChange,
              status := "Completed",
              unitPrice := none,
              reason := orNull req.reason,
              transactionDate := now,
              receiveDate := none }],
         nextTransactionID := db.nextTransactionID + 1 })

/-- The request body of POST `/api/inventory/add-item`.  The handler
destructures only `hotelID, itemName, category, unit, lowStockThreshold`;
`bodyQuantity` records any extra `quantity` field a client may send,
which the handler never reads. -/
structure AddItemReq where
  hotelID : Int
  itemName : String
  category : Option String
  unit : Option String
  lowStockThreshold : Option Int
  bodyQuantity : Option Int
deriving DecidableEq, Repr

/-- `addItemValidation`: positive `hotelID`, trimmed non-empty `itemName`
of length at most 100, optional `category` (at most 50), optional `unit`
(at most 20), optional non-negative `lowStockThreshold`. -/
def addItemValid (r : AddItemReq) : Bool :=
  (0 < r.hotelID) &&
  (trimStr r.itemName ≠ "") && ((trimStr r.itemName).length ≤ 100) &&
  (match r.category with
   | some s => (trimStr s).length ≤ 50
   | none => true) &&
  (match r.unit with
   | some s => (trimStr s).length ≤ 20
   | none => true) &&
  (match r.lowStockThreshold with
   | some n => 0 ≤ n
   | none => true)

/-- The duplicate-name check of add-item: `SELECT 1 FROM Inventory WHERE
HotelID = ? AND LOWER(ItemName) = LOWER(?)`. -/
def dupItem (inv : List InvRow) (hotelID : Int) (itemName : String) : Bool :=
  inv.any fun r =>
    ((r.hotelID : Int) == hotelID) &&
      (lowerStr r.itemName == lowerStr itemName)

/-- POST `/api/inventory/add-item` (inventoryRoutes.js): 409 if the
(case-insensitively compared) item name already exists for the hotel,
otherwise `INSERT INTO Inventory (... Quantity ...) VALUES (..., 0, ...)`
and 201. -/
def addItem (db : DB) (now : Nat) (req : AddItemReq) (errAt : Nat → Bool) :
    Response × DB :=
  if ¬ addItemValid req then
    ({ status := 400, body := .json false "Validation failed." }, db)
  else if errAt 0 then
    ({ status := 500, body := .json false "Database error adding item." }, db)
  else if dupItem db.inventory req.hotelID (trimStr req.itemName) then
    ({ status := 409,
       body := .json false "Item already exists for this hotel." }, db)
  else if errAt 1 then
    ({ status := 500, body := .json false "Database error adding item." }, db)
  else
    ({ status := 201, body := .json true "Item added successfully" },
     { db with
         inventory := db.inventory ++
           [{ inventoryID := db.nextInventoryID,
              hotelID := req.hotelID.toNat,
              itemName := trimStr req.itemName,
              category := orNull req.category,
              quantity := 0,
              unit := orNull req.unit,
              lowStockThreshold := req.lowStockThreshold,
              lastUpdated := now }],
         nextInventoryID := db.nextInventoryID + 1 })

/-- The request body of POST `/api/inventory/order-item`. -/
structure OrderItemReq where
  hotelID : Int
  inventoryID : Int
  quantity : Int
  unitPrice : Int
deriving DecidableEq, Repr

/-- `orderItemValidation`: positive ids, positive quantity, non-negative
unit price. -/
def orderItemValid (r : OrderItemReq) : Bool :=
  (0 < r.hotelID) && (0 < r.inventoryID) && (0 < r.quantity) &&
    (0 ≤ r.unitPrice)

/-- POST `/api/inventory/order-item` (inventoryRoutes.js): 404 if the
item does not exist for the hotel, otherwise insert one 'Pending'
'Order' row into `InventoryTransactions` and respond 200. -/
def orderItem (db : DB) (now : Nat) (req : OrderItemReq)
    (errAt : Nat → Bool) : Response × DB :=
  if ¬ orderItemValid req then
    ({ status := 400, body := .json false "Validation failed." }, db)
  else if errAt 0 then
    ({ status := 500, body := .json false "Database error placing order." }, db)
  else if ¬ db.inventory.any (fun r =>
      ((r.inventoryID : Int) == req.inventoryID) &&
        ((r.hotelID : Int) == req.hotelID)) then
    ({ status := 404,
       body := .json false "Inventory item not found for this hotel." }, db)
  else if errAt 1 then
    ({ status := 500, body := .json false "Database error placing order." }, db)
  else
    ({ status := 200, body := .json true "Order placed successfully" },
     { db with
         invTransactions := db.invTransactions ++
           [{ transactionID := db.nextTransactionID,
              inventoryID := req.inventoryID.toNat,
              hotelID := req.hotelID.toNat,
              transactionType := "Order",
              quantity := req.quantity,
              status := "Pending",
              unitPrice := some req.unitPrice,
              reason := none,
              transactionDate := now,
              receiveDate := none }],
         nextTransactionID := db.nextTransactionID + 1 })

/-- The request of POST `/api/manager/financials/maintenance-ledger`
(managerFinancialRoutes.js); `managerHotelId` comes from the
authenticated user. -/
structure MaintLedgerReq where
  managerHotelId : Nat
  serviceType : String
  amount : Int
  ledgerDate : Nat
deriving DecidableEq, Repr

/-- Its route validation: non-empty `serviceType` of length at most 100,
positive `amount`, ISO date. -/
def maintLedgerValid (r : MaintLedgerReq) : Bool :=
  (trimStr r.serviceType ≠ "") && ((trimStr r.serviceType).length ≤ 100) &&
    (0 < r.amount)

/-- POST `/api/manager/financials/maintenance-ledger`
(managerFinancialRoutes.js): `INSERT INTO BillMaintenanceLedger ...`,
respond 201.  The source elides the catch body; a database error is
modelled as a 500 with no insert, per the error-handling convention of
the sibling routes. -/
def addMaintLedger (db : DB) (req : MaintLedgerReq) (errAt : Nat → Bool) :
    Response × DB :=
  if ¬ maintLedgerValid req then
    ({ status := 400, body := .json false "Validation failed." }, db)
  else if errAt 0 then
    ({ status := 500, body := .json false "Database error." }, db)
  else
    ({ status := 201, body := .json true "Maintenance entry added." },
     { db with
         maintLedger := db.maintLedger ++
           [{ ledgerID := db.nextLedgerID,
              hotelID := req.managerHotelId,
              serviceType := trimStr req.serviceType,
              amount := req.amount,
              ledgerDate := req.ledgerDate }],
         nextLedgerID := db.nextLedgerID + 1 })

/-- POST `/api/employee/employees` (employeeRoute.js): a read-only
listing with no route-boundary validation; a database error is answered
with `res.status(500).send("Database error")` - a plain-text body. -/
def employeesList (db : DB) (hotelID : Int) (dbErr : Bool) :
    Response × DB :=
  if dbErr then
    ({ status := 500, body := .text "Database error" }, db)
  else
    ({ status := 200, body := .jsonRows }, db)

/-- A client-visible database session action, recording transaction
demarcation (or its absence) in a handler run. -/
inductive DBAction where
  | beginTx
  | runQuery
  | commitTx
  | rollbackTx
deriving DecidableEq, Repr

/-- The shared request body of the two employee-update endpoints. -/
structure UpdateEmpReq where
  empID : Int
  firstName : String
  lastName : String
  phone : Option String
  email : String
  deptName : String
  hotelID : Int
  hourlyPay : Int
  role : String
  workingStatus : String
  hiredDate : Nat
deriving DecidableEq, Repr

/-- `SELECT DeptID FROM Department WHERE DeptName = ? AND HotelID = ?
LIMIT 1`. -/
def findDept (depts : List DeptRow) (deptName : String) (hotelID : Int) :
    Option DeptRow :=
  depts.find? fun d =>
    (d.deptName == deptName) && ((d.hotelID : Int) == hotelID)

/-- `UPDATE Employee SET ... WHERE EmpID = ?`. -/
def updateEmpRows (emps : List EmpRow) (req : UpdateEmpReq) (deptID : Nat) :
    List EmpRow :=
  emps.map fun e =>
    if (e.empID : Int) == req.empID then
      { e with
          firstName := req.firstName, lastName := req.lastName,
          phone := req.phone, email := req.email,
          hourlyPay := req.hourlyPay, role := req.role,
          workingStatus := req.workingStatus, hiredDate := req.hiredDate,
          deptID := deptID }
    else e

/-- POST `/api/employee/update-employee` (employeeRoute.js): department
lookup then employee update as two plain `db.query` calls - no
validation middleware, no transaction, plain-text bodies, and no
`affectedRows` check (success is reported even if no employee matched).
The result carries the trace of database session actions. -/
def updateEmployeeLegacy (db : DB) (req : UpdateEmpReq)
    (errAt : Nat → Bool) : Response × DB × List DBAction :=
  if errAt 0 then
    ({ status := 500, body := .text "Error finding department." }, db,
     [.runQuery])
  else
    match findDept db.departments req.deptName req.hotelID with
    | none =>
        ({ status := 404, body := .text "Department not found." }, db,
         [.runQuery])
    | some d =>
        if errAt 1 then
          ({ status := 500, body := .text "Error updating employee." }, db,
           [.runQuery, .runQuery])
        else
          ({ status := 200, body := .text "Employee updated successfully." },
           { db with employees := updateEmpRows db.employees req d.deptID },
           [.runQuery, .runQuery])

/-- `updateEmployeeValidationRules` of PUT `/api/employees/update`
(employees.js): positive `empID`, non-empty names of length at most 50,
an email (modelled as containing a `@`), non-empty `deptName`, positive
`hourlyPay`, role and working status restricted to the allowed lists,
positive `hotelID`. -/
def updateEmpValid (r : UpdateEmpReq) : Bool :=
  (0 < r.empID) &&
  (trimStr r.firstName ≠ "") && ((trimStr r.firstName).length ≤ 50) &&
  (trimStr r.lastName ≠ "") && ((trimStr r.lastName).length ≤ 50) &&
  ((trimStr r.email).data.contains '@') &&
  (trimStr r.deptName ≠ "") &&
  (0 < r.hourlyPay) &&
  (r.role == "Receptionist" || r.role == "Housekeeping" ||
   r.role == "Staff" || r.role == "Contractor") &&
  (r.workingStatus == "Working" || r.workingStatus == "Inactive" ||
   r.workingStatus == "Not Working") &&
  (0 < r.hotelID)

/-- PUT `/api/employees/update` (employees.js): express-validator at the
route boundary, then department lookup and employee update inside one
begin/commit/rollback connection transaction; 404 (with rollback) when
the department or the employee is missing; JSON bodies throughout. -/
def updateEmployeeTx (db : DB) (req : UpdateEmpReq) (errAt : Nat → Bool) :
    Response × DB × List DBAction :=
  if ¬ updateEmpValid req then
    ({ status := 400, body := .json false "Validation failed." }, db, [])
  else if errAt 0 then
    ({ status := 500, body := .json false "Database error updating employee." },
     db, [.beginTx, .runQuery, .rollbackTx])
  else
    match findDept db.departments req.deptName req.hotelID with
    | none =>
        ({ status := 404,
           body := .json false "Department not found for this hotel." }, db,
         [.beginTx, .runQuery, .rollbackTx])
    | some d =>
        if errAt 1 then
          ({ status := 500,
             body := .json false "Database error updating employee." }, db,
           [.beginTx, .runQuery, .runQuery, .rollbackTx])
        else if db.employees.countP (fun e => (e.empID : Int) == req.empID) == 0 then
          ({ status := 404, body := .json false "Employee not found." }, db,
           [.beginTx, .runQuery, .runQuery, .rollbackTx])
        else
          ({ status := 200, body := .json true "Employee updated successfully." },
           { db with employees := updateEmpRows db.employees req d.deptID },
           [.beginTx, .runQuery, .runQuery, .commitTx])

/-! ### Helper lemmas about the SQL update/insert primitives -/

/-- The quantity update rewrites the first row with the given id in place:
`find?` on the updated table is `find?` on the old table with the update
applied. -/
theorem find?_updateInvQty (inv : List InvRow) (invID : Nat) (dq : Int)
    (now : Nat) :
    (updateInvQty inv invID dq now).find? (fun r => r.inventoryID == invID) =
      (inv.find? (fun r => r.inventoryID == invID)).map
        (fun r => { r with quantity := r.quantity + dq, lastUpdated := now }) := by
  induction inv with
  | nil => rfl
  | cons r rest ih =>
      simp only [updateInvQty, List.map_cons] at ih ⊢
      by_cases h : (r.inventoryID == invID) = true
      · rw [if_pos h]
        simp only [List.find?_cons, h]
        rfl
      · have hf : (r.inventoryID == invID) = false := by
          simpa using h
        rw [if_neg h]
        simp only [List.find?_cons, hf]
        exact ih

/-- Rows with a different id are untouched by the quantity update. -/
theorem filter_ne_updateInvQty (inv : List InvRow) (invID : Nat) (dq : Int)
    (now : Nat) :
    (updateInvQty inv invID dq now).filter (fun r => r.inventoryID != invID) =
      inv.filter (fun r => r.inventoryID != invID) := by
  induction inv with
  | nil => rfl
  | cons r rest ih =>
      simp only [updateInvQty, List.map_cons] at ih ⊢
      by_cases h : (r.inventoryID == invID) = true
      · have hb : (r.inventoryID != invID) = false := by
          simp only [bne, h, Bool.not_true]
        rw [if_pos h, List.filter_cons, List.filter_cons]
        simp only [hb, Bool.false_eq_true, if_false, ih]
      · have hb : (r.inventoryID != invID) = true := by
          simp only [bne, Bool.not_eq_true']
          simpa using h
        rw [if_neg h, List.filter_cons, List.filter_cons]
        simp only [hb, if_true, ih]

/-- After `completeTx` no row with the given transaction id is still a
pending order: a second lookup finds nothing. -/
theorem find?_pendingOrder_completeTx (txs : List TxRow) (tid : Int)
    (now : Nat) :
    (completeTx txs tid now).find? (pendingOrder tid) = none := by
  induction txs with
  | nil => rfl
  | cons t rest ih =>
      simp only [completeTx, List.map_cons] at ih ⊢
      by_cases h : ((t.transactionID : Int) == tid) = true
      · have hs : pendingOrder tid
            { t with status := "Completed", receiveDate := some now } = false := by
          simp [pendingOrder]
        rw [if_pos h]
        simp only [List.find?_cons, hs]
        exact ih
      · have hf : ((t.transactionID : Int) == tid) = false := by
          simpa using h
        have hs : pendingOrder tid t = false := by
          simp [pendingOrder, hf]
        rw [if_neg h]
        simp only [List.find?_cons, hs]
        exact ih

/-- The completed image of a matching row is a member of the updated
table. -/
theorem mem_completeTx (txs : List TxRow) (tid : Int) (now : Nat)
    (t : TxRow) (hmem : t ∈ txs) (hid : (t.transactionID : Int) = tid) :
    { t with status := "Completed", receiveDate := some now } ∈
      completeTx txs tid now := by
  have himg := List.mem_map_of_mem (fun u : TxRow =>
    if (u.transactionID : Int) == tid then
      { u with status := "Completed", receiveDate := some now }
    else u) hmem
  simpa [completeTx, hid] using himg

/-- Every row of the updated table that matches the transaction id is
completed with the given receive date. -/
theorem completeTx_matching_completed (txs : List TxRow) (tid : Int)
    (now : Nat) :
    ∀ u ∈ completeTx txs tid now, (u.transactionID : Int) = tid →
      u.status = "Completed" ∧ u.receiveDate = some now := by
  intro u hu hid
  simp only [completeTx, List.mem_map] at hu
  obtain ⟨t, _, himg⟩ := hu
  by_cases h : (t.transactionID : Int) = tid
  · simp [h] at himg
    subst himg
    exact ⟨rfl, rfl⟩
  · simp [h] at himg
    subst himg
    exact absurd hid h

/-- A found row witnesses a non-zero affected-rows count. -/
theorem affectedInv_ne_zero_of_find? (inv : List InvRow) (invID : Nat)
    (r : InvRow)
    (h : inv.find? (fun x => x.inventoryID == invID) = some r) :
    affectedInv inv invID ≠ 0 := by
  have hmem := List.mem_of_find?_eq_some h
  have hpred := List.find?_some h
  have hpos : 0 < inv.countP (fun x => x.inventoryID == invID) :=
    List.countP_pos_iff.mpr ⟨r, hmem, hpred⟩
  unfold affectedInv
  omega

/-! ### C1 -/

/-- C1: a receive-order request whose transactionID names a pending
order transaction row, run without database errors, responds 200, adds
exactly the transaction quantity to the referenced inventory row, and
marks the transaction row Completed with its ReceiveDate set. -/
theorem receiveOrder_pending_completes
    (db : DB) (now : Nat) (tid : Int) (t : TxRow) (r : InvRow)
    (hval : receiveOrderValid tid = true)
    (hfind : db.invTransactions.find? (pendingOrder tid) = some t)
    (hinv : db.inventory.find? (fun x => x.inventoryID == t.inventoryID) = some r) :
    (receiveOrder db now tid errNone).1.status = 200 ∧
    (receiveOrder db now tid errNone).2.inventory.find?
        (fun x => x.inventoryID == t.inventoryID) =
      some { r with quantity := r.quantity + t.quantity, lastUpdated := now } ∧
    { t with status := "Completed", receiveDate := some now } ∈
      (receiveOrder db now tid errNone).2.invTransactions ∧
    (∀ u ∈ (receiveOrder db now tid errNone).2.invTransactions,
       (u.transactionID : Int) = tid →
         u.status = "Completed" ∧ u.receiveDate = some now) := by
  have haff : (affectedInv db.inventory t.inventoryID == 0) = false := by
    have := affectedInv_ne_zero_of_find? db.inventory t.inventoryID r hinv
    simpa using this
  have hro : receiveOrder db now tid errNone =
      ({ status := 200,
         body := .json true
           "Order received and inventory updated successfully." },
       { db with
           inventory := updateInvQty db.inventory t.inventoryID t.quantity now,
           invTransactions := completeTx db.invTransactions tid now }) := by
    unfold receiveOrder
    rw [hfind]
    simp [hval, errNone, haff]
  have hpend := List.find?_some hfind
  have htid : (t.transactionID : Int) = tid := by
    simp only [pendingOrder, Bool.and_eq_true, beq_iff_eq] at hpend
    exact hpend.1.1
  have hmem := List.mem_of_find?_eq_some hfind
  rw [hro]
  refine ⟨rfl, ?_, ?_, ?_⟩
  · simp only
    rw [find?_updateInvQty, hinv]
    rfl
  · exact mem_completeTx db.invTransactions tid now t hmem htid
  · exact completeTx_matching_completed db.invTransactions tid now

/-- The inventory row of the concrete witness database. -/
def item1 : InvRow :=
  { inventoryID := 1, hotelID := 1, itemName := "Soap", category := none,
    quantity := 3, unit := none, lowStockThreshold := none, lastUpdated := 0 }

/-- The pending order row of the concrete witness database. -/
def tx1 : TxRow :=
  { transactionID := 1, inventoryID := 1, hotelID := 1,
    transactionType := "Order", quantity := 5, status := "Pending",
    unitPrice := some 2, reason := none, transactionDate := 0,
    receiveDate := none }

/-- A small concrete database used by the witnesses. -/
def db1 : DB :=
  { hotels := [{ hotelID := 1, hotelName := "H" }],
    inventory := [item1], invTransactions := [tx1], maintLedger := [],
    departments := [{ deptID := 1, deptName := "Desk", hotelID := 1 }],
    employees :=
      [{ empID := 1, deptID := 1, firstName := "Ann", lastName := "Lee",
         phone := none, email := "a@b.c", hourlyPay := 10,
         role := "Receptionist", workingStatus := "Working", hiredDate := 0 }],
    bookings := [], nextInventoryID := 2, nextTransactionID := 2,
    nextLedgerID := 1 }

/-- Witness for C1: receiving pending order 1 on the concrete database. -/
theorem receiveOrder_pending_completes_witness :
    (receiveOrder db1 7 1 errNone).1.status = 200 ∧
    (receiveOrder db1 7 1 errNone).2.inventory.find?
        (fun x => x.inventoryID == tx1.inventoryID) =
      some { item1 with quantity := item1.quantity + tx1.quantity,
                        lastUpdated := 7 } ∧
    { tx1 with status := "Completed", receiveDate := some 7 } ∈
      (receiveOrder db1 7 1 errNone).2.invTransactions ∧
    (∀ u ∈ (receiveOrder db1 7 1 errNone).2.invTransactions,
       (u.transactionID : Int) = 1 →
         u.status = "Completed" ∧ u.receiveDate = some 7) :=
  receiveOrder_pending_completes db1 7 1 tx1 item1 (by decide) (by decide)
    (by decide)

/-! ### C2 -/

/-- C2: the two multi-statement handlers (receive-order and quantity
adjust) are atomic: any outcome other than success leaves the database
exactly as before the request, and an injected database error on the
first statement after beginTransaction yields a 500 with the state
rolled back. -/
theorem tx_error_rollback (db : DB) (now : Nat) (tid : Int)
    (req : AdjustReq) (errAt : Nat → Bool) :
    ((receiveOrder db now tid errAt).1.status ≠ 200 →
       (receiveOrder db now tid errAt).2 = db) ∧
    (receiveOrderValid tid = true → errAt 0 = true →
       (receiveOrder db now tid errAt).1.status = 500 ∧
       (receiveOrder db now tid errAt).2 = db) ∧
    (receiveOrderValid tid = true → errAt 0 = false →
       ∀ t, db.invTransactions.find? (pendingOrder tid) = some t →
         errAt 1 = true →
           (receiveOrder db now tid errAt).1.status = 500 ∧
           (receiveOrder db now tid errAt).2 = db) ∧
    (receiveOrderValid tid = true → errAt 0 = false →
       ∀ t, db.invTransactions.find? (pendingOrder tid) = some t →
         errAt 1 = false →
         (affectedInv db.inventory t.inventoryID == 0) = false →
         errAt 2 = true →
           (receiveOrder db now tid errAt).1.status = 500 ∧
           (receiveOrder db now tid errAt).2 = db) ∧
    ((adjustInventory db now req errAt).1.status ≠ 200 →
       (adjustInventory db now req errAt).2 = db) ∧
    (adjustValid req = true → errAt 0 = true →
       (adjustInventory db now req errAt).1.status = 500 ∧
       (adjustInventory db now req errAt).2 = db) ∧
    (adjustValid req = true → errAt 0 = false →
       (affectedInv db.inventory req.inventoryID.toNat == 0) = false →
       errAt 1 = true →
         (adjustInventory db now req errAt).1.status = 500 ∧
         (adjustInventory db now req errAt).2 = db) := by
  refine ⟨?_, ?_, ?_, ?_, ?_, ?_, ?_⟩
  · unfold receiveOrder
    repeat' split
    all_goals intro h
    all_goals first | rfl | exact absurd rfl h
  · intro hval herr
    unfold receiveOrder
    rw [if_neg (by simp [hval]), if_pos herr]
    exact ⟨rfl, rfl⟩
  · intro hval h0 t hfind h1
    unfold receiveOrder
    rw [hfind]
    simp [hval, h0, h1]
  · intro hval h0 t hfind h1 haff h2
    unfold receiveOrder
    rw [hfind]
    simp [hval, h0, h1, haff, h2]
  · unfold adjustInventory
    repeat' split
    all_goals intro h
    all_goals first | rfl | exact absurd rfl h
  · intro hval herr
    unfold adjustInventory
    rw [if_neg (by simp [hval]), if_pos herr]
    exact ⟨rfl, rfl⟩
  · intro hval h0 haff h1
    unfold adjustInventory
    simp [hval, h0, haff, h1]

/-- The adjustment request used by the witnesses: item 1, usage, minus
five units. -/
def adjReq1 : AdjustReq :=
  { inventoryID := 1, adjustmentType := "Usage", quantityChange := -5,
    reason := none, hotelID := 1 }

/-- Witness for C2: an injected failure at each statement of either
handler answers 500 and returns the concrete database unchanged. -/
theorem tx_error_rollback_witness :
    ((receiveOrder db1 7 1 (fun _ => true)).1.status = 500 ∧
     (receiveOrder db1 7 1 (fun _ => true)).2 = db1) ∧
    ((receiveOrder db1 7 1 (fun n => n == 1)).1.status = 500 ∧
     (receiveOrder db1 7 1 (fun n => n == 1)).2 = db1) ∧
    ((receiveOrder db1 7 1 (fun n => n == 2)).1.status = 500 ∧
     (receiveOrder db1 7 1 (fun n => n == 2)).2 = db1) ∧
    ((adjustInventory db1 7 adjReq1 (fun _ => true)).1.status = 500 ∧
     (adjustInventory db1 7 adjReq1 (fun _ => true)).2 = db1) ∧
    ((adjustInventory db1 7 adjReq1 (fun n => n == 1)).1.status = 500 ∧
     (adjustInventory db1 7 adjReq1 (fun n => n == 1)).2 = db1) := by
  refine ⟨?_, ?_, ?_, ?_, ?_⟩
  · exact (tx_error_rollback db1 7 1 adjReq1 (fun _ => true)).2.1
      (by decide) rfl
  · exact (tx_error_rollback db1 7 1 adjReq1 (fun n => n == 1)).2.2.1
      (by decide) rfl tx1 (by decide) rfl
  · exact (tx_error_rollback db1 7 1 adjReq1 (fun n => n == 2)).2.2.2.1
      (by decide) rfl tx1 (by decide) rfl (by decide) rfl
  · exact (tx_error_rollback db1 7 1 adjReq1 (fun _ => true)).2.2.2.2.2.1
      (by decide) rfl
  · exact (tx_error_rollback db1 7 1 adjReq1 (fun n => n == 1)).2.2.2.2.2.2
      (by decide) rfl (by decide) rfl

/-! ### C6 -/

/-- C6: add-item answers 409 and inserts nothing when the item name
(compared case-insensitively) already exists for the hotel, and
otherwise inserts exactly one row and answers 201. -/
theorem addItem_conflict_or_insert (db : DB) (now : Nat) (req : AddItemReq)
    (errAt : Nat → Bool)
    (hval : addItemValid req = true)
    (e0 : errAt 0 = false) (e1 : errAt 1 = false) :
    (dupItem db.inventory req.hotelID (trimStr req.itemName) = true →
       (addItem db now req errAt).1.status = 409 ∧
       (addItem db now req errAt).2 = db) ∧
    (dupItem db.inventory req.hotelID (trimStr req.itemName) = false →
       (addItem db now req errAt).1.status = 201 ∧
       ∃ row, (addItem db now req errAt).2.inventory =
         db.inventory ++ [row]) := by
  constructor
  · intro hdup
    unfold addItem
    rw [if_neg (by simp [hval]), if_neg (by simp [e0]), if_pos hdup]
    exact ⟨rfl, rfl⟩
  · intro hdup
    unfold addItem
    rw [if_neg (by simp [hval]), if_neg (by simp [e0]),
        if_neg (by simp [hdup]), if_neg (by simp [e1])]
    exact ⟨rfl, _, rfl⟩

/-- A duplicate add-item request: `soap` collides case-insensitively
with the existing `Soap` of hotel 1. -/
def addDup : AddItemReq :=
  { hotelID := 1, itemName := "soap", category := none, unit := none,
    lowStockThreshold := none, bodyQuantity := none }

/-- A fresh add-item request whose body also carries a quantity of 42. -/
def addNew : AddItemReq :=
  { hotelID := 1, itemName := "Towel", category := none, unit := none,
    lowStockThreshold := none, bodyQuantity := some 42 }

/-- Witness for C6: the duplicate request conflicts, the fresh one
inserts. -/
theorem addItem_conflict_or_insert_witness :
    ((addItem db1 7 addDup errNone).1.status = 409 ∧
     (addItem db1 7 addDup errNone).2 = db1) ∧
    ((addItem db1 7 addNew errNone).1.status = 201 ∧
     ∃ row, (addItem db1 7 addNew errNone).2.inventory =
       db1.inventory ++ [row]) := by
  constructor
  · exact (addItem_conflict_or_insert db1 7 addDup errNone (by decide) rfl
      rfl).1 (by decide)
  · exact (addItem_conflict_or_insert db1 7 addNew errNone (by decide) rfl
      rfl).2 (by decide)

/-! ### C10 -/

/-- C10: a successful add-item inserts a row whose Quantity is 0,
whatever quantity value the request body carried. -/
theorem addItem_quantity_always_zero (db : DB) (now : Nat) (req : AddItemReq)
    (errAt : Nat → Bool)
    (hval : addItemValid req = true)
    (hdup : dupItem db.inventory req.hotelID (trimStr req.itemName) = false)
    (e0 : errAt 0 = false) (e1 : errAt 1 = false) :
    (addItem db now req errAt).1.status = 201 ∧
    ∃ row, (addItem db now req errAt).2.inventory = db.inventory ++ [row] ∧
      row.quantity = 0 := by
  unfold addItem
  rw [if_neg (by simp [hval]), if_neg (by simp [e0]),
      if_neg (by simp [hdup]), if_neg (by simp [e1])]
  exact ⟨rfl, _, rfl, rfl⟩

/-- Witness for C10: the request carried quantity 42, the inserted row
has quantity 0. -/
theorem addItem_quantity_always_zero_witness :
    addNew.bodyQuantity = some 42 ∧
    (addItem db1 7 addNew errNone).1.status = 201 ∧
    ∃ row, (addItem db1 7 addNew errNone).2.inventory =
      db1.inventory ++ [row] ∧ row.quantity = 0 :=
  ⟨rfl,
   (addItem_quantity_always_zero db1 7 addNew errNone (by decide) (by decide)
     rfl rfl).1,
   (addItem_quantity_always_zero db1 7 addNew errNone (by decide) (by decide)
     rfl rfl).2⟩

/-! ### C7 -/

/-- C7: the quantity-adjust endpoint only touches the addressed
inventory row and appends at most one InventoryTransactions row; every
other table (Hotel, Employee, Booking, Department, BillMaintenanceLedger)
and every Inventory row with a different id is left unchanged. -/
theorem adjust_frame (db : DB) (now : Nat) (req : AdjustReq)
    (errAt : Nat → Bool) :
    (adjustInventory db now req errAt).2.hotels = db.hotels ∧
    (adjustInventory db now req errAt).2.employees = db.employees ∧
    (adjustInventory db now req errAt).2.bookings = db.bookings ∧
    (adjustInventory db now req errAt).2.departments = db.departments ∧
    (adjustInventory db now req errAt).2.maintLedger = db.maintLedger ∧
    (adjustInventory db now req errAt).2.inventory.filter
        (fun r => r.inventoryID != req.inventoryID.toNat) =
      db.inventory.filter (fun r => r.inventoryID != req.inventoryID.toNat) ∧
    ((adjustInventory db now req errAt).2.invTransactions =
        db.invTransactions ∨
      ∃ t1, (adjustInventory db now req errAt).2.invTransactions =
        db.invTransactions ++ [t1]) := by
  unfold adjustInventory
  repeat' split
  all_goals refine ⟨rfl, rfl, rfl, rfl, rfl, ?_, ?_⟩
  all_goals first
    | exact rfl
    | exact Or.inl rfl
    | exact filter_ne_updateInvQty db.inventory req.inventoryID.toNat
        req.quantityChange now
    | exact Or.inr ⟨_, rfl⟩

/-! ### C9 -/

/-- C9: the adjust endpoint applies any quantityChange unconditionally
to an existing item: it succeeds with 200 and the new quantity is the
old one plus the change, with no non-negativity guard. -/
theorem adjust_unconditional (db : DB) (now : Nat) (req : AdjustReq)
    (r : InvRow)
    (hval : adjustValid req = true)
    (hfind : db.inventory.find?
      (fun x => x.inventoryID == req.inventoryID.toNat) = some r) :
    (adjustInventory db now req errNone).1.status = 200 ∧
    (adjustInventory db now req errNone).2.inventory.find?
        (fun x => x.inventoryID == req.inventoryID.toNat) =
      some { r with quantity := r.quantity + req.quantityChange,
                    lastUpdated := now } := by
  have haff : (affectedInv db.inventory req.inventoryID.toNat == 0) = false := by
    have := affectedInv_ne_zero_of_find? db.inventory req.inventoryID.toNat
      r hfind
    simpa using this
  unfold adjustInventory
  rw [if_neg (by simp [hval]), if_neg (by simp [errNone]),
      if_neg (by simp [haff]), if_neg (by simp [errNone])]
  refine ⟨rfl, ?_⟩
  simp only
  rw [find?_updateInvQty, hfind]
  rfl

/-- Witness for C9: adjusting item 1 (stock 3) by minus five succeeds
and leaves the stored quantity negative. -/
theorem adjust_unconditional_witness :
    (adjustInventory db1 7 adjReq1 errNone).1.status = 200 ∧
    (adjustInventory db1 7 adjReq1 errNone).2.inventory.find?
        (fun x => x.inventoryID == adjReq1.inventoryID.toNat) =
      some { item1 with quantity := item1.quantity + adjReq1.quantityChange,
                        lastUpdated := 7 } ∧
    ({ item1 with quantity := item1.quantity + adjReq1.quantityChange,
                  lastUpdated := 7 } : InvRow).quantity < 0 := by
  have h := adjust_unconditional db1 7 adjReq1 item1 (by decide) (by decide)
  exact ⟨h.1, h.2, by decide⟩

/-! ### C8 -/

/-- C8: an order can be received at most once: after a successful
receive-order for a transaction id, a second receive-order with the
same id answers 404 and leaves the database (inventory and transaction
rows included) unchanged. -/
theorem receiveOrder_second_404 (db : DB) (now now2 : Nat) (tid : Int)
    (h200 : (receiveOrder db now tid errNone).1.status = 200) :
    (receiveOrder (receiveOrder db now tid errNone).2 now2 tid
        errNone).1.status = 404 ∧
    (receiveOrder (receiveOrder db now tid errNone).2 now2 tid errNone).2 =
      (receiveOrder db now tid errNone).2 := by
  by_cases hval : receiveOrderValid tid = true
  · cases hfind : db.invTransactions.find? (pendingOrder tid) with
    | none =>
        exfalso
        unfold receiveOrder at h200
        rw [if_neg (by simp [hval]), if_neg (by simp [errNone]), hfind]
          at h200
        simp at h200
    | some t =>
        by_cases haff : (affectedInv db.inventory t.inventoryID == 0) = true
        · exfalso
          unfold receiveOrder at h200
          rw [if_neg (by simp [hval]), if_neg (by simp [errNone]), hfind]
            at h200
          simp [errNone, haff] at h200
        · have haff' : (affectedInv db.inventory t.inventoryID == 0) = false := by
            simpa using haff
          have hro : receiveOrder db now tid errNone =
              ({ status := 200,
                 body := .json true
                   "Order received and inventory updated successfully." },
               { db with
                   inventory :=
                     updateInvQty db.inventory t.inventoryID t.quantity now,
                   invTransactions := completeTx db.invTransactions tid now }) := by
            unfold receiveOrder
            rw [hfind]
            simp [hval, errNone, haff']
          rw [hro]
          have hro2 : receiveOrder
              { db with
                  inventory :=
                    updateInvQty db.inventory t.inventoryID t.quantity now,
                  invTransactions := completeTx db.invTransactions tid now }
              now2 tid errNone =
              ({ status := 404,
                 body := .json false
                   "Pending order transaction not found or already completed." },
               { db with
                   inventory :=
                     updateInvQty db.inventory t.inventoryID t.quantity now,
                   invTransactions := completeTx db.invTransactions tid now }) := by
            unfold receiveOrder
            simp [hval, errNone, find?_pendingOrder_completeTx]
          rw [hro2]
          exact ⟨rfl, rfl⟩
  · exfalso
    unfold receiveOrder at h200
    rw [if_pos (by simpa using hval)] at h200
    simp at h200

/-- Witness for C8: receiving order 1 twice on the concrete database. -/
theorem receiveOrder_second_404_witness :
    (receiveOrder (receiveOrder db1 7 1 errNone).2 9 1 errNone).1.status =
      404 ∧
    (receiveOrder (receiveOrder db1 7 1 errNone).2 9 1 errNone).2 =
      (receiveOrder db1 7 1 errNone).2 :=
  receiveOrder_second_404 db1 7 9 1 (by decide)

/-! ### C3 -/

/-- C3 counterexample: receive-order modifies an existing
InventoryTransactions row in place - after receiving order 1, the
original pending row is no longer present in the table, so the table is
not append-only under every endpoint. -/
theorem ledger_append_only_cex :
    tx1 ∈ db1.invTransactions ∧
    tx1 ∉ (receiveOrder db1 7 1 errNone).2.invTransactions := by
  decide

/-- C3 amended: no endpoint ever deletes a row of either ledger table;
BillMaintenanceLedger only grows by appended rows; InventoryTransactions
only grows by appended rows except that receive-order rewrites the
received order row in place (Status and ReceiveDate), preserving the
row count. -/
theorem ledgers_append_style (db : DB) (now : Nat) (tid : Int)
    (areq : AdjustReq) (oreq : OrderItemReq) (ireq : AddItemReq)
    (mreq : MaintLedgerReq) (ureq : UpdateEmpReq) (errAt : Nat → Bool) :
    ((addItem db now ireq errAt).2.invTransactions = db.invTransactions ∧
     (addItem db now ireq errAt).2.maintLedger = db.maintLedger) ∧
    (((adjustInventory db now areq errAt).2.invTransactions =
         db.invTransactions ∨
       ∃ t1, (adjustInventory db now areq errAt).2.invTransactions =
         db.invTransactions ++ [t1]) ∧
     (adjustInventory db now areq errAt).2.maintLedger = db.maintLedger) ∧
    (((orderItem db now oreq errAt).2.invTransactions = db.invTransactions ∨
       ∃ t1, (orderItem db now oreq errAt).2.invTransactions =
         db.invTransactions ++ [t1]) ∧
     (orderItem db now oreq errAt).2.maintLedger = db.maintLedger) ∧
    (((addMaintLedger db mreq errAt).2.maintLedger = db.maintLedger ∨
       ∃ l1, (addMaintLedger db mreq errAt).2.maintLedger =
         db.maintLedger ++ [l1]) ∧
     (addMaintLedger db mreq errAt).2.invTransactions = db.invTransactions) ∧
    (((receiveOrder db now tid errAt).2.invTransactions =
         db.invTransactions ∨
       (receiveOrder db now tid errAt).2.invTransactions =
         completeTx db.invTransactions tid now) ∧
     (receiveOrder db now tid errAt).2.invTransactions.length =
       db.invTransactions.length ∧
     (receiveOrder db now tid errAt).2.maintLedger = db.maintLedger) ∧
    ((updateEmployeeLegacy db ureq errAt).2.1.invTransactions =
       db.invTransactions ∧
     (updateEmployeeLegacy db ureq errAt).2.1.maintLedger = db.maintLedger ∧
     (updateEmployeeTx db ureq errAt).2.1.invTransactions =
       db.invTransactions ∧
     (updateEmployeeTx db ureq errAt).2.1.maintLedger = db.maintLedger) := by
  refine ⟨⟨?_, ?_⟩, ⟨?_, ?_⟩, ⟨?_, ?_⟩, ⟨?_, ?_⟩, ⟨?_, ?_, ?_⟩,
    ⟨?_, ?_, ?_, ?_⟩⟩
  · unfold addItem
    repeat' split
    all_goals rfl
  · unfold addItem
    repeat' split
    all_goals rfl
  · unfold adjustInventory
    repeat' split
    all_goals first | exact Or.inl rfl | exact Or.inr ⟨_, rfl⟩
  · unfold adjustInventory
    repeat' split
    all_goals rfl
  · unfold orderItem
    repeat' split
    all_goals first | exact Or.inl rfl | exact Or.inr ⟨_, rfl⟩
  · unfold orderItem
    repeat' split
    all_goals rfl
  · unfold addMaintLedger
    repeat' split
    all_goals first | exact Or.inl rfl | exact Or.inr ⟨_, rfl⟩
  · unfold addMaintLedger
    repeat' split
    all_goals rfl
  · unfold receiveOrder
    repeat' split
    all_goals first | exact Or.inl rfl | exact Or.inr rfl
  · unfold receiveOrder
    repeat' split
    all_goals first | rfl | exact List.length_map _ _
  · unfold receiveOrder
    repeat' split
    all_goals rfl
  · unfold updateEmployeeLegacy
    repeat' split
    all_goals rfl
  · unfold updateEmployeeLegacy
    repeat' split
    all_goals rfl
  · unfold updateEmployeeTx
    repeat' split
    all_goals rfl
  · unfold updateEmployeeTx
    repeat' split
    all_goals rfl

/-! ### C4 -/

/-- A response conforming to the standard convention: a success, or an
error with a standard status code and a JSON body. -/
def respOk (resp : Response) : Prop :=
  (resp.status = 200 ∨ resp.status = 201) ∨
  ((resp.status = 400 ∨ resp.status = 404 ∨ resp.status = 409 ∨
    resp.status = 500) ∧ resp.body.isJson = true)

/-- C4 counterexample: the employee-listing endpoint of employeeRoute.js
reports a database error as status 500 with the plain-text body
`Database error`, not a JSON error object. -/
theorem error_responses_json_cex :
    (employeesList db1 1 true).1.status = 500 ∧
    (employeesList db1 1 true).1.body = Body.text "Database error" ∧
    (employeesList db1 1 true).1.body.isJson = false := by
  decide

/-- C4 amended: every validator-based endpoint reports each outcome with
a standard status code (200/201 success, 400/404/409/500 error) and a
JSON body, while the legacy employeeRoute.js handlers (employee listing,
update-employee) answer with plain-text bodies. -/
theorem error_responses_json (db : DB) (now : Nat) (tid : Int)
    (areq : AdjustReq) (oreq : OrderItemReq) (ireq : AddItemReq)
    (mreq : MaintLedgerReq) (ureq : UpdateEmpReq) (errAt : Nat → Bool)
    (hid : Int) (dbErr : Bool) :
    respOk (receiveOrder db now tid errAt).1 ∧
    respOk (adjustInventory db now areq errAt).1 ∧
    respOk (addItem db now ireq errAt).1 ∧
    respOk (orderItem db now oreq errAt).1 ∧
    respOk (addMaintLedger db mreq errAt).1 ∧
    respOk (updateEmployeeTx db ureq errAt).1 ∧
    (employeesList db hid dbErr).1.body.isJson = (!dbErr) ∧
    (updateEmployeeLegacy db ureq errAt).1.body.isJson = false := by
  refine ⟨?_, ?_, ?_, ?_, ?_, ?_, ?_, ?_⟩
  · unfold receiveOrder
    repeat' split
    all_goals simp [respOk, Body.isJson]
  · unfold adjustInventory
    repeat' split
    all_goals simp [respOk, Body.isJson]
  · unfold addItem
    repeat' split
    all_goals simp [respOk, Body.isJson]
  · unfold orderItem
    repeat' split
    all_goals simp [respOk, Body.isJson]
  · unfold addMaintLedger
    repeat' split
    all_goals simp [respOk, Body.isJson]
  · unfold updateEmployeeTx
    repeat' split
    all_goals simp [respOk, Body.isJson]
  · unfold employeesList
    cases dbErr <;> rfl
  · unfold updateEmployeeLegacy
    repeat' split
    all_goals rfl

/-! ### C5 -/

/-- An employee-update request matching the concrete database (employee
1, department Desk of hotel 1). -/
def updReq1 : UpdateEmpReq :=
  { empID := 1, firstName := "Ann", lastName := "Lee", phone := none,
    email := "a@b.c", deptName := "Desk", hotelID := 1, hourlyPay := 12,
    role := "Receptionist", workingStatus := "Working", hiredDate := 3 }

/-- An employee-update request naming a department that does not exist
in the concrete database. -/
def updReqBad : UpdateEmpReq :=
  { updReq1 with deptName := "Spa" }

/-- C5 counterexample: the POST update-employee handler of
employeeRoute.js runs the department lookup and the employee update with
no transaction at all - even its successful run has no begin, commit or
rollback in its database-action trace. -/
theorem employee_update_no_tx_cex :
    (updateEmployeeLegacy db1 updReq1 errNone).1.status = 200 ∧
    DBAction.beginTx ∉ (updateEmployeeLegacy db1 updReq1 errNone).2.2 ∧
    DBAction.commitTx ∉ (updateEmployeeLegacy db1 updReq1 errNone).2.2 ∧
    DBAction.rollbackTx ∉ (updateEmployeeLegacy db1 updReq1 errNone).2.2 := by
  decide

/-- C5 amended: the PUT update handler of employees.js wraps the
department lookup and employee update in one begin/commit/rollback
transaction (its trace opens with begin and closes with commit or
rollback), answers 404 leaving the database unchanged when the
department is missing, and rolls back every non-success outcome;
the older POST update-employee handler of employeeRoute.js performs the
same department-missing 404 with the employee row unchanged, but runs
without any transaction. -/
theorem employee_update_transactional (db : DB) (req : UpdateEmpReq)
    (errAt : Nat → Bool) :
    (updateEmpValid req = true →
       (updateEmployeeTx db req errAt).2.2.head? = some DBAction.beginTx ∧
       ((updateEmployeeTx db req errAt).2.2.getLast? =
           some DBAction.commitTx ∨
        (updateEmployeeTx db req errAt).2.2.getLast? =
           some DBAction.rollbackTx)) ∧
    ((updateEmployeeTx db req errAt).1.status ≠ 200 →
       (updateEmployeeTx db req errAt).2.1 = db) ∧
    (updateEmpValid req = true → errAt 0 = false →
       findDept db.departments req.deptName req.hotelID = none →
       (updateEmployeeTx db req errAt).1.status = 404 ∧
       (updateEmployeeTx db req errAt).2.1 = db) ∧
    (errAt 0 = false →
       findDept db.departments req.deptName req.hotelID = none →
       (updateEmployeeLegacy db req errAt).1.status = 404 ∧
       (updateEmployeeLegacy db req errAt).2.1 = db) ∧
    DBAction.beginTx ∉ (updateEmployeeLegacy db req errAt).2.2 := by
  refine ⟨?_, ?_, ?_, ?_, ?_⟩
  · intro hval
    unfold updateEmployeeTx
    rw [if_neg (by simp [hval])]
    repeat' split
    all_goals first
      | exact ⟨rfl, Or.inl rfl⟩
      | exact ⟨rfl, Or.inr rfl⟩
  · unfold updateEmployeeTx
    repeat' split
    all_goals intro h
    all_goals first | rfl | exact absurd rfl h
  · intro hval he hnone
    unfold updateEmployeeTx
    rw [hnone]
    rw [if_neg (by simp [hval]), if_neg (by simp [he])]
    exact ⟨rfl, rfl⟩
  · intro he hnone
    unfold updateEmployeeLegacy
    rw [hnone]
    rw [if_neg (by simp [he])]
    exact ⟨rfl, rfl⟩
  · unfold updateEmployeeLegacy
    repeat' split
    all_goals simp

/-- Witness for the amended C5 at the concrete database: a missing
department gives 404 and no change on both handlers, and the
transactional handler opens with begin. -/
theorem employee_update_transactional_witness :
    ((updateEmployeeTx db1 updReqBad errNone).1.status = 404 ∧
     (updateEmployeeTx db1 updReqBad errNone).2.1 = db1) ∧
    ((updateEmployeeLegacy db1 updReqBad errNone).1.status = 404 ∧
     (updateEmployeeLegacy db1 updReqBad errNone).2.1 = db1) ∧
    ((updateEmployeeTx db1 updReq1 errNone).2.2.head? =
        some DBAction.beginTx ∧
     ((updateEmployeeTx db1 updReq1 errNone).2.2.getLast? =
         some DBAction.commitTx ∨
      (updateEmployeeTx db1 updReq1 errNone).2.2.getLast? =
         some DBAction.rollbackTx)) :=
  ⟨(employee_update_transactional db1 updReqBad errNone).2.2.1 (by decide)
     rfl (by decide),
   (employee_update_transactional db1 updReqBad errNone).2.2.2.1 rfl
     (by decide),
   (employee_update_transactional db1 updReq1 errNone).1 (by decide)⟩
